import Mathlib

/-!
Shallow embedding of the JustVibe backend (Express + Supabase music-streaming
API): the Auth Gate middleware, the Favorites manager routes, the Playlist
manager routes, and the registration route.  Each definition mirrors one
route handler or helper of the JavaScript source; external-store behaviour
(lookup replies, generated ids, unique constraints) is passed in explicitly.
-/

namespace JustVibe

/-- JavaScript `a || b` on optional strings: `undefined`/`null` and the empty
string are falsy, so the left side wins exactly when it is a non-empty
string. -/
def jsOr (a b : Option String) : Option String :=
  match a with
  | some s => if s = "" then b else some s
  | none => b

/-- Truthiness of an optional string in JavaScript: `undefined`, `null` and
`""` are falsy. -/
def jsTruthy (a : Option String) : Bool :=
  match a with
  | some s => s ≠ ""
  | none => false

/-- PostgREST `.single()` on a query result: the data object is returned
exactly when the query matched one row; zero or several matching rows make
`.single()` report an error, which the routes treat as "no data". -/
def singleFound {α : Type} (rows : List α) : Option α :=
  match rows with
  | [x] => some x
  | _ => none

/-! ## Favorites manager (routes/favorites, mounted behind the auth gate)

A favorites row as the routes write it: `user_id`, `song_title`, and the
denormalized song snapshot.  The store-generated `id`/`added_at` columns are
not consulted by any of the verified routes and are omitted. -/

structure FavoriteRow where
  user_id : String
  song_title : String
  song_src : Option String
  song_img : Option String
  album_id : Option String
  album_cover : Option String
  artist : Option String
  deriving DecidableEq, Repr

/-- The favorites table state. -/
abbrev FavState := List FavoriteRow

/-- Row matches the `(user_id, song_title)` equality filters used by the
favorites routes. -/
def favMatch (u t : String) (r : FavoriteRow) : Bool :=
  r.user_id = u && r.song_title = t

/-- The store-level uniqueness invariant on favorites: no two rows share the
same `(user_id, song_title)` pair (§3: "a user cannot favorite the same title
twice, enforced at the store level"). -/
def FavInv (s : FavState) : Prop :=
  s.Pairwise (fun a b => a.user_id ≠ b.user_id ∨ a.song_title ≠ b.song_title)

instance (s : FavState) : Decidable (FavInv s) := by
  unfold FavInv; infer_instance

/-- The set of song titles user `u` has favorited, as the list of titles of
their rows. -/
def favTitles (s : FavState) (u : String) : List String :=
  (s.filter (fun r => r.user_id = u)).map (fun r => r.song_title)

/-- The request body of favorites add/toggle: `songTitle` plus the song
snapshot fields. -/
structure FavBody where
  songTitle : Option String
  songSrc : Option String
  songImg : Option String
  albumId : Option String
  albumCover : Option String
  artist : Option String
  deriving DecidableEq, Repr

/-- The row inserted by the add/toggle handlers for user `u`, title `t` and
body `b` (the literal insert object of the source). -/
def mkFavRow (u t : String) (b : FavBody) : FavoriteRow :=
  { user_id := u
    song_title := t
    song_src := b.songSrc
    song_img := b.songImg
    album_id := b.albumId
    album_cover := b.albumCover
    artist := b.artist }

/-- Outcome of `POST /api/favorites/toggle`. -/
inductive ToggleResult
  | validationError                 -- 400 "Song title is required"
  | removed                         -- action=removed
  | added (favorite : FavoriteRow)  -- action=added
  | storeError                      -- 500 insert/delete failure
  deriving DecidableEq, Repr

/-- Route `POST /api/favorites/toggle`: pre-check existence via `.single()`; if
present delete the `(user, title)` rows; otherwise insert the body row.  The
insert reports a store error exactly when the store's unique constraint is
violated, i.e. a matching row already exists. -/
def toggleFavorite (s : FavState) (u : String) (b : FavBody) :
    ToggleResult × FavState :=
  match b.songTitle with
  | none => (.validationError, s)
  | some t =>
    if t = "" then (.validationError, s)
    else
      match singleFound (s.filter (favMatch u t)) with
      | some _ => (.removed, s.filter (fun r => !(favMatch u t r)))
      | none =>
        if s.any (favMatch u t) then (.storeError, s)
        else (.added (mkFavRow u t b), s ++ [mkFavRow u t b])

/-- Outcome of `POST /api/favorites/add`. -/
inductive AddFavResult
  | validationError                 -- 400 "Song title is required"
  | conflict                        -- 400 "Song already in favorites"
  | ok (favorite : FavoriteRow)     -- 200, created row
  | storeError                      -- 500 "Failed to add to favorites"
  deriving DecidableEq, Repr

/-- Route `POST /api/favorites/add`: validate `songTitle`, pre-check the
`(user, title)` pair via `.single()`, then insert and return the created
row. -/
def addFavorite (s : FavState) (u : String) (b : FavBody) :
    AddFavResult × FavState :=
  match b.songTitle with
  | none => (.validationError, s)
  | some t =>
    if t = "" then (.validationError, s)
    else
      match singleFound (s.filter (favMatch u t)) with
      | some _ => (.conflict, s)
      | none =>
        if s.any (favMatch u t) then (.storeError, s)
        else (.ok (mkFavRow u t b), s ++ [mkFavRow u t b])

/-- The reply of the store to the `.single()` lookup issued by
`POST /api/favorites/check`: a row, or an error with a PostgREST code
(`"PGRST116"` being "not found"). -/
inductive LookupReply
  | found (r : FavoriteRow)
  | err (code : String)
  deriving DecidableEq, Repr

/-- The response of `POST /api/favorites/check`: the route only ever answers
with a JSON body `{ isFavorite: <bool> }` — it has no error-status branch. -/
inductive CheckResponse
  | jsonFav (isFavorite : Bool)
  | errorStatus (status : Nat) (error : String)
  deriving DecidableEq, Repr

/-- Route `POST /api/favorites/check`: a missing title answers `false`; a lookup
error with a code other than `"PGRST116"` is logged and answers `false`; the
`"PGRST116"` (not-found) error leaves `data` null so `!!data` is `false`;
only a found row answers `true`. -/
def checkFavorite (songTitle : Option String) (reply : LookupReply) :
    CheckResponse :=
  match songTitle with
  | none => .jsonFav false
  | some t =>
    if t = "" then .jsonFav false
    else
      match reply with
      | .err code =>
        if code ≠ "PGRST116" then .jsonFav false
        else .jsonFav false
      | .found _ => .jsonFav true

/-! ## Auth Gate (middleware/auth.js, `authenticateToken`)

`jwt.verify` either throws (malformed token, bad signature, expired token) or
yields the decoded payload; the outcome is an explicit input of the model. -/

/-- The payload `jwt.verify` returns on success: `{userId, email, username,
exp}`, each possibly absent. -/
structure DecodedToken where
  userId : Option String
  email : Option String
  username : Option String
  exp : Option Nat
  deriving DecidableEq, Repr

/-- Outcome of `jwt.verify(token, secret)`. -/
inductive VerifyOutcome
  | malformed
  | badSignature
  | expired
  | ok (decoded : DecodedToken)
  deriving DecidableEq, Repr

/-- The Supabase Auth user returned by `auth.admin.getUserById`. -/
structure AuthUser where
  id : String
  email : String
  deriving DecidableEq, Repr

/-- One request's view of the gate's collaborators: the raw authorization
header, what `jwt.verify` does on it, the clock, the Identity Provider's
reply, and the profile row's username (if any). -/
structure AuthEnv where
  token : Option String
  verify : VerifyOutcome
  nowMs : Nat
  authUser : Option AuthUser
  profileUsername : Option String
  deriving DecidableEq, Repr

/-- What the gate does with the request: respond with an error status, or
attach `{userId, email, username}` and call `next()`. -/
inductive GateOutcome
  | respond (status : Nat) (error : String)
  | proceed (userId email username : String)
  deriving DecidableEq, Repr

/-- The in-handler expiry guard `decoded.exp && decoded.exp * 1000 <
Date.now()` (truthy `exp`, so `exp = 0` never fires it). -/
def expGuardFires (d : DecodedToken) (nowMs : Nat) : Bool :=
  match d.exp with
  | some e => e ≠ 0 && e * 1000 < nowMs
  | none => false

/-- Middleware `authenticateToken`: the token is the raw header; a thrown verification
error is caught and answered 403 "Invalid or expired token"; a decoded
payload is checked for expiry (the truthy `exp` guard) and for a truthy
`userId` (`if (!userId)`, so a missing and an empty-string subject are the
same failure); the subject must still exist in the Identity Provider;
finally the display username is
`profile?.username || decoded.username || email.split('@')[0]` — the `||`
chain skips empty strings, and `email` is an unbound identifier in the
source, so whenever both stored usernames are falsy the third fallback
throws a ReferenceError which the catch turns into the 403 response. -/
def authenticateToken (env : AuthEnv) : GateOutcome :=
  match env.token with
  | none => .respond 401 "Access token required"
  | some tok =>
    if tok = "" then .respond 401 "Access token required"
    else
      match env.verify with
      | .malformed => .respond 403 "Invalid or expired token"
      | .badSignature => .respond 403 "Invalid or expired token"
      | .expired => .respond 403 "Invalid or expired token"
      | .ok d =>
        if expGuardFires d env.nowMs then
          .respond 401 "Invalid or expired token"
        else
          if jsTruthy d.userId = false then
            .respond 401 "Invalid token: missing user ID"
          else
            match env.authUser with
            | none => .respond 401 "Invalid token: user not found"
            | some au =>
              match jsOr env.profileUsername d.username with
              | some uname =>
                if uname = "" then .respond 403 "Invalid or expired token"
                else .proceed au.id au.email uname
              | none => .respond 403 "Invalid or expired token"

/-! ## Registration (routes/users, `POST /users/insert`)

The two stores visible to registration: the Identity Provider's user ids and
the `user_profiles` rows `(id, username)`. -/

structure RegState where
  authUsers : List String
  profiles : List (String × String)
  deriving DecidableEq, Repr

/-- Outcome of `auth.admin.createUser`: a fresh user, or the
already-registered error, or some other failure. -/
inductive CreateUserReply
  | created
  | alreadyRegistered
  | otherFailure
  deriving DecidableEq, Repr

/-- The `"<code>::<message>"` status strings of the registration route. -/
structure RegResult where
  status : Nat
  body : String
  deriving DecidableEq, Repr

/-- Route `POST /users/insert`: validate the three fields and the password length,
pre-check the username in `user_profiles` via `.single()`, create the
Identity Provider user (`newId` is the id it would mint,
`createReply`/`profileInsertFails` inject the stores' behaviour), insert the
profile row, and on profile failure delete the just-created auth user before
answering 500. -/
def register (st : RegState) (username email password : Option String)
    (newId : String) (createReply : CreateUserReply)
    (profileInsertFails : Bool) : RegResult × RegState :=
  if !(jsTruthy username && jsTruthy email && jsTruthy password) then
    (⟨400, "400::Please fill out all fields."⟩, st)
  else
    match username, password with
    | some uname, some pw =>
      if pw.length < 8 then
        (⟨400, "400::Password must be at least 8 characters long."⟩, st)
      else
        match singleFound (st.profiles.filter (fun p => p.2 = uname)) with
        | some _ => (⟨400, "400::Username already exists."⟩, st)
        | none =>
          match createReply with
          | .alreadyRegistered => (⟨400, "400::Email already registered."⟩, st)
          | .otherFailure =>
            (⟨500, "500::Registration failed. Please try again."⟩, st)
          | .created =>
            let st1 : RegState :=
              { st with authUsers := newId :: st.authUsers }
            if profileInsertFails then
              (⟨500, "500::Registration failed. Please try again."⟩,
               { st1 with authUsers := st1.authUsers.filter (fun i => i ≠ newId) })
            else
              (⟨200, "200::Registration successful!"⟩,
               { st1 with profiles := (newId, uname) :: st1.profiles })
    | _, _ => (⟨400, "400::Please fill out all fields."⟩, st)

/-! ## Playlist manager (routes/playlists, mounted behind the auth gate) -/

/-- SQL `LIKE` pattern matching on character lists (first argument the
pattern): `%` matches any sequence, `_` matches exactly one character, any
other pattern character matches itself case-insensitively (the
case-insensitive variant backing the store's `ilike` filter). -/
def likeMatch : List Char → List Char → Bool
  | [], cs => cs.isEmpty
  | '%' :: ps, cs => cs.tails.any (fun suffix => likeMatch ps suffix)
  | '_' :: _, [] => false
  | '_' :: ps, _ :: cs => likeMatch ps cs
  | _ :: _, [] => false
  | p :: ps, c :: cs => (p.toLower = c.toLower) && likeMatch ps cs

/-- The store's `.ilike(column, pattern)` filter applied to a column value. -/
def ilikeMatch (value pattern : String) : Bool :=
  likeMatch pattern.data value.data

/-- Character-wise lowercasing of a string. -/
def strLower (s : String) : String :=
  ⟨s.data.map Char.toLower⟩

/-- Case-insensitive string equality (both sides lowercased), the
comparison the spec's "matches case-insensitively" describes. -/
def cieq (a b : String) : Bool :=
  strLower a = strLower b

/-- JavaScript `String.prototype.trim`: strip whitespace from both ends. -/
def jsTrim (s : String) : String :=
  ⟨((s.data.dropWhile Char.isWhitespace).reverse.dropWhile
      Char.isWhitespace).reverse⟩

/-- A playlists row as the routes read and write it. -/
structure PlaylistRow where
  id : String
  user_id : String
  name : String
  description : Option String
  cover_image : Option String
  created_at : String
  updated_at : String
  deriving DecidableEq, Repr

/-- The playlists row the create handler inserts: trimmed name, `|| null`
normalization of the optional fields, store-generated id and timestamps. -/
def newPlaylistRow (u pname : String) (description coverImage : Option String)
    (newId now : String) : PlaylistRow :=
  { id := newId
    user_id := u
    name := pname
    description := if jsTruthy description then description else none
    cover_image := if jsTruthy coverImage then coverImage else none
    created_at := now
    updated_at := now }

/-- Outcome of `POST /api/playlists/create`. -/
inductive CreatePlResult
  | validationError                -- 400 "Playlist name is required"
  | conflict                       -- 400 "A playlist with the name ... already exists"
  | ok (playlist : PlaylistRow)    -- 200, created playlist
  deriving DecidableEq, Repr

/-- Route `POST /api/playlists/create`: require a non-blank name, trim it,
pre-check via `.ilike(name, trimmedName).single()`, then insert (`newId` and
`now` stand for the store-generated id and timestamps).  The route also maps
a 23505 unique-violation insert error to the same conflict answer, but
schema.sql defines no unique constraint on playlists `(user_id, name)`, so
the real insert never reports one and that branch is dead: the model's
insert always succeeds. -/
def createPlaylist (s : List PlaylistRow) (u : String)
    (name description coverImage : Option String) (newId now : String) :
    CreatePlResult × List PlaylistRow :=
  match name with
  | none => (.validationError, s)
  | some n =>
    if n = "" then (.validationError, s)
    else if jsTrim n = "" then (.validationError, s)
    else
      let playlistName := jsTrim n
      match singleFound (s.filter
          (fun r => r.user_id = u && ilikeMatch r.name playlistName)) with
      | some _ => (.conflict, s)
      | none =>
        let row := newPlaylistRow u playlistName description coverImage
          newId now
        (.ok row, s ++ [row])

/-- The update request body: `name`/`description`/`coverImage` each either
absent (`!== undefined` fails, field untouched) or present; a present
description/coverImage may itself be the JSON null. -/
structure UpdateBody where
  name : Option String
  description : Option (Option String)
  coverImage : Option (Option String)
  deriving DecidableEq, Repr

/-- The `updateData` object applied to a row: provided fields overwrite
(name trimmed), `updated_at` always set to the current time. -/
def applyUpdate (body : UpdateBody) (now : String) (r : PlaylistRow) :
    PlaylistRow :=
  { r with
    name := match body.name with
            | some n => jsTrim n
            | none => r.name
    description := body.description.getD r.description
    cover_image := body.coverImage.getD r.cover_image
    updated_at := now }

/-- Outcome of `PUT /api/playlists/:id`. -/
inductive UpdatePlResult
  | notFound                       -- 404 "Playlist not found"
  | ok (playlist : PlaylistRow)    -- 200, updated playlist
  deriving DecidableEq, Repr

/-- Route `PUT /api/playlists/:id`: read the row by id via `.single()`; a missing
row or a foreign owner both answer 404 "Playlist not found"; otherwise apply
`updateData` to the rows matching the id and return the updated row. -/
def updatePlaylist (s : List PlaylistRow) (u id : String) (body : UpdateBody)
    (now : String) : UpdatePlResult × List PlaylistRow :=
  match singleFound (s.filter (fun r => r.id = id)) with
  | none => (.notFound, s)
  | some r0 =>
    if r0.user_id ≠ u then (.notFound, s)
    else
      (.ok (applyUpdate body now r0),
       s.map (fun r => if r.id = id then applyUpdate body now r else r))

/-- A playlist_songs row as the routes write it (`id` is store-generated and
never consulted; `added_at` is the store-assigned insertion time). -/
structure PlaylistSongRow where
  playlist_id : String
  song_title : Option String
  song_src : Option String
  song_img : Option String
  album_id : Option String
  artist : Option String
  position : Nat
  added_at : String
  deriving DecidableEq, Repr

/-- One element of the `songs` array of the add-songs request: the handler
accepts either naming convention for each field (`songTitle || title`,
`songSrc || src`, ...). -/
structure InputSong where
  songTitle : Option String
  title : Option String
  songSrc : Option String
  src : Option String
  songImg : Option String
  img : Option String
  albumId : Option String
  album_id : Option String
  artist : Option String
  deriving DecidableEq, Repr

/-- The row the add-songs handler builds for one input song at a given
position. -/
def mkPlaylistSongRow (pid : String) (s : InputSong) (pos : Nat)
    (now : String) : PlaylistSongRow :=
  { playlist_id := pid
    song_title := jsOr s.songTitle s.title
    song_src := jsOr s.songSrc s.src
    song_img := jsOr s.songImg s.img
    album_id := jsOr s.albumId s.album_id
    artist := s.artist
    position := pos
    added_at := now }

/-- Whether a resolved title is in the handler's `existingTitles` set: the
set holds the `song_title` values of the playlist's rows matching the
`.in('song_title', songTitles)` filter, and an unresolved (undefined) title
is never a member. -/
def titleExists (rows : List PlaylistSongRow) (t : Option String) : Bool :=
  match t with
  | none => false
  | some str => rows.any (fun r => r.song_title = some str)

/-- The handler's next-position computation: read the row of maximal
position (`order position desc, limit 1`); start at 1 when the playlist has
no rows or the read position is falsy (0), else at that position + 1. -/
def nextPositionOf (rows : List PlaylistSongRow) : Nat :=
  let maxPos := (rows.map (fun r => r.position)).foldr max 0
  if rows.isEmpty then 1
  else if maxPos = 0 then 1
  else maxPos + 1

/-- The `songsToAdd` mapping: each filtered song becomes a row at position
`base + its index`. -/
def assignPositions (pid now : String) (base : Nat) :
    List InputSong → List PlaylistSongRow
  | [] => []
  | s :: rest => mkPlaylistSongRow pid s base now ::
      assignPositions pid now (base + 1) rest

/-- Outcome of `POST /api/playlists/:id/songs/add`. -/
inductive AddSongsResult
  | validationError                       -- 400 "Songs array is required"
  | notFound                              -- 404 "Playlist not found"
  | allDuplicates                         -- 400 "All songs are already in the playlist"
  | ok (inserted : List PlaylistSongRow)  -- 200, inserted rows
  deriving DecidableEq, Repr

/-- Route `POST /api/playlists/:id/songs/add`: require a non-empty songs array;
check ownership via the playlists `.single()` read; compute the next
position from the playlist's current rows; drop the songs whose resolved
title already exists in the playlist; refuse if nothing is left; insert the
remaining songs at consecutive positions. -/
def addSongsRoute (playlists : List PlaylistRow)
    (plSongs : List PlaylistSongRow) (u pid : String)
    (songs : List InputSong) (now : String) :
    AddSongsResult × List PlaylistSongRow :=
  if songs.isEmpty then (.validationError, plSongs)
  else
    match singleFound (playlists.filter (fun r => r.id = pid)) with
    | none => (.notFound, plSongs)
    | some pl =>
      if pl.user_id ≠ u then (.notFound, plSongs)
      else
        let rowsFor := plSongs.filter (fun r => r.playlist_id = pid)
        let songsToAdd := assignPositions pid now (nextPositionOf rowsFor)
          (songs.filter (fun s => !(titleExists rowsFor (jsOr s.songTitle s.title))))
        if songsToAdd.isEmpty then (.allDuplicates, plSongs)
        else (.ok songsToAdd, plSongs ++ songsToAdd)

/-- The external shape of a playlist song in the responses. -/
structure FormattedSong where
  title : Option String
  src : Option String
  img : Option String
  albumId : Option String
  albumCover : Option String
  artist : Option String
  position : Nat
  addedAt : String
  deriving DecidableEq, Repr

/-- The song mapping of `GET /api/playlists/user` (each playlist's attached
songs). -/
def formatUserPlaylistSong (song : PlaylistSongRow) : FormattedSong :=
  { title := song.song_title
    src := song.song_src
    img := song.song_img
    albumId := song.album_id
    albumCover := song.song_img
    artist := song.artist
    position := song.position
    addedAt := song.added_at }

/-- The song mapping of `GET /api/playlists/:id/songs`. -/
def formatGetPlaylistSong (song : PlaylistSongRow) : FormattedSong :=
  { title := song.song_title
    src := song.song_src
    img := song.song_img
    albumId := song.album_id
    albumCover := song.song_img
    artist := song.artist
    position := song.position
    addedAt := song.added_at }

/-- The song mapping of the `POST /api/playlists/:id/songs/add` response
(over the rows the insert returned). -/
def formatAddedPlaylistSong (song : PlaylistSongRow) : FormattedSong :=
  { title := song.song_title
    src := song.song_src
    img := song.song_img
    albumId := song.album_id
    albumCover := song.song_img
    artist := song.artist
    position := song.position
    addedAt := song.added_at }

/-! ## Theorems -/

/-- C10: in every playlist-songs response — the list-with-songs mapping, the
get-songs mapping, and the add-songs result mapping — the `albumCover` field
of each song is that song's own `song_img`, hence always equal to the `img`
field of the same response object. -/
theorem c10_albumCover_is_song_img (song : PlaylistSongRow) :
    (formatUserPlaylistSong song).albumCover = song.song_img ∧
    (formatGetPlaylistSong song).albumCover = song.song_img ∧
    (formatAddedPlaylistSong song).albumCover = song.song_img ∧
    (formatUserPlaylistSong song).albumCover = (formatUserPlaylistSong song).img ∧
    (formatGetPlaylistSong song).albumCover = (formatGetPlaylistSong song).img ∧
    (formatAddedPlaylistSong song).albumCover = (formatAddedPlaylistSong song).img :=
  ⟨rfl, rfl, rfl, rfl, rfl, rfl⟩

/-- C8: the favorites check route always answers a JSON boolean `isFavorite`
and never an error status, whatever the store's lookup reply: a not-found
reply and every other lookup failure both yield `false`, and `true` is
answered exactly when the title is a non-empty string and the lookup found a
row. -/
theorem c8_check_fail_open (songTitle : Option String) (reply : LookupReply) :
    ∃ b : Bool, checkFavorite songTitle reply = .jsonFav b ∧
      (b = true ↔ (jsTruthy songTitle = true ∧ ∃ r, reply = .found r)) := by
  match songTitle with
  | none => exact ⟨false, rfl, by simp [jsTruthy]⟩
  | some t =>
    by_cases ht : t = ""
    · exact ⟨false, by simp [checkFavorite, ht], by simp [jsTruthy, ht]⟩
    · match reply with
      | .found r =>
        exact ⟨true, by simp [checkFavorite, ht], by simp [jsTruthy, ht]⟩
      | .err code =>
        refine ⟨false, ?_, by simp [jsTruthy, ht]⟩
        by_cases hc : code = "PGRST116" <;> simp [checkFavorite, ht, hc]

/-- C2 counterexample: two of the listed failure causes are observably
distinct — a token with a missing subject is answered 401 "Invalid token:
missing user ID", an unknown subject 401 "Invalid token: user not found",
while an expired token gets the generic 403 "Invalid or expired token"; the
three responses are pairwise different, refuting "one and the same generic
signal with no observable distinction". -/
theorem c2_counterexample :
    authenticateToken
      { token := some "tok"
        verify := .ok { userId := none, email := some "a@b.c",
                        username := some "alice", exp := none }
        nowMs := 0
        authUser := some { id := "u1", email := "a@b.c" }
        profileUsername := none } =
      .respond 401 "Invalid token: missing user ID" ∧
    authenticateToken
      { token := some "tok"
        verify := .ok { userId := some "u1", email := some "a@b.c",
                        username := some "alice", exp := none }
        nowMs := 0
        authUser := none
        profileUsername := none } =
      .respond 401 "Invalid token: user not found" ∧
    authenticateToken
      { token := some "tok"
        verify := .expired
        nowMs := 0
        authUser := none
        profileUsername := none } =
      .respond 403 "Invalid or expired token" ∧
    (GateOutcome.respond 401 "Invalid token: missing user ID" ≠
      GateOutcome.respond 403 "Invalid or expired token") ∧
    (GateOutcome.respond 401 "Invalid token: user not found" ≠
      GateOutcome.respond 403 "Invalid or expired token") ∧
    (GateOutcome.respond 401 "Invalid token: missing user ID" ≠
      GateOutcome.respond 401 "Invalid token: user not found") := by
  refine ⟨rfl, rfl, rfl, ?_, ?_, ?_⟩ <;> decide

/-- C2 amended: only the failure causes that make the verifier throw —
malformed token, bad signature, expired token — collapse to the one generic
403 "Invalid or expired token" response; a verified token with a missing
subject is answered 401 "Invalid token: missing user ID" and a subject
unknown to the Identity Provider 401 "Invalid token: user not found", both
observably distinct from the generic signal and from each other. -/
theorem c2_amended (env : AuthEnv) (tok : String)
    (htok : env.token = some tok) (hne : tok ≠ "") :
    ((env.verify = .malformed ∨ env.verify = .badSignature ∨
        env.verify = .expired) →
      authenticateToken env = .respond 403 "Invalid or expired token") ∧
    (∀ d, env.verify = .ok d → expGuardFires d env.nowMs = false →
      jsTruthy d.userId = false →
      authenticateToken env = .respond 401 "Invalid token: missing user ID") ∧
    (∀ d, env.verify = .ok d → expGuardFires d env.nowMs = false →
      jsTruthy d.userId = true → env.authUser = none →
      authenticateToken env = .respond 401 "Invalid token: user not found") := by
  refine ⟨?_, ?_, ?_⟩
  · rintro (hv | hv | hv) <;> simp [authenticateToken, htok, hne, hv]
  · intro d hv hguard huid
    simp [authenticateToken, htok, hne, hv, hguard, huid]
  · intro d hv hguard huid hau
    simp [authenticateToken, htok, hne, hv, hguard, huid, hau]

theorem c2_amended_witness :
    (some "tok" = some "tok" ∧ "tok" ≠ "") ∧
    (authenticateToken
      { token := some "tok", verify := .expired, nowMs := 0,
        authUser := none, profileUsername := none } =
      .respond 403 "Invalid or expired token") := by
  refine ⟨⟨rfl, by decide⟩, ?_⟩
  exact (c2_amended
    { token := some "tok", verify := .expired, nowMs := 0,
      authUser := none, profileUsername := none }
    "tok" rfl (by decide)).1 (Or.inr (Or.inr rfl))

/-- C6: evaluation at the failing input.  With a profile that has no
username (or an empty one) and a token that carries no username (or an empty
one), the gate does not proceed with the email's local part: the source's
`||` chain treats the empty string as falsy, its third fallback reads the
unbound identifier `email`, the thrown ReferenceError is caught, and the
request is answered 403 "Invalid or expired token" — while the first two
fallbacks (profile username, token username) do proceed. -/
theorem c6_email_fallback_is_broken :
    authenticateToken
      { token := some "tok"
        verify := .ok { userId := some "u1", email := some "alice@example.com",
                        username := none, exp := none }
        nowMs := 0
        authUser := some { id := "u1", email := "alice@example.com" }
        profileUsername := none } =
      .respond 403 "Invalid or expired token" ∧
    authenticateToken
      { token := some "tok"
        verify := .ok { userId := some "u1", email := some "alice@example.com",
                        username := some "", exp := none }
        nowMs := 0
        authUser := some { id := "u1", email := "alice@example.com" }
        profileUsername := some "" } =
      .respond 403 "Invalid or expired token" ∧
    (∀ u : String,
      authenticateToken
        { token := some "tok"
          verify := .ok { userId := some "u1", email := some "alice@example.com",
                          username := none, exp := none }
          nowMs := 0
          authUser := some { id := "u1", email := "alice@example.com" }
          profileUsername := none } ≠
        .proceed "u1" "alice@example.com" u) ∧
    authenticateToken
      { token := some "tok"
        verify := .ok { userId := some "u1", email := some "alice@example.com",
                        username := none, exp := none }
        nowMs := 0
        authUser := some { id := "u1", email := "alice@example.com" }
        profileUsername := some "profname" } =
      .proceed "u1" "alice@example.com" "profname" ∧
    authenticateToken
      { token := some "tok"
        verify := .ok { userId := some "u1", email := some "alice@example.com",
                        username := some "tokname", exp := none }
        nowMs := 0
        authUser := some { id := "u1", email := "alice@example.com" }
        profileUsername := none } =
      .proceed "u1" "alice@example.com" "tokname" := by
  refine ⟨rfl, rfl, ?_, rfl, rfl⟩
  intro u h
  exact GateOutcome.noConfusion h

/-- C9: registration is atomic across the two stores — for a fresh identity
id, whatever the request fields and however the Identity Provider's create
and the profile insert behave, after the request the new id is in the auth
store exactly when its profile row exists: on profile-insert failure the
just-created auth user is deleted before the 500 is returned. -/
theorem c9_register_atomic (st : RegState)
    (username email password : Option String) (newId : String)
    (createReply : CreateUserReply) (profileInsertFails : Bool)
    (hfreshA : newId ∉ st.authUsers)
    (hfreshP : ∀ p ∈ st.profiles, p.1 ≠ newId) :
    (newId ∈ (register st username email password newId createReply
        profileInsertFails).2.authUsers ↔
      ∃ p ∈ (register st username email password newId createReply
        profileInsertFails).2.profiles, p.1 = newId) := by
  have hunch : (newId ∈ st.authUsers ↔ ∃ p ∈ st.profiles, p.1 = newId) := by
    constructor
    · intro h; exact absurd h hfreshA
    · rintro ⟨p, hp, hq⟩; exact absurd hq (hfreshP p hp)
  unfold register
  repeat' split
  any_goals exact hunch
  · -- profile insert fails: the just-created auth user is filtered back out
    constructor
    · intro h
      rw [List.mem_filter] at h
      simp at h
    · rintro ⟨p, hp, hq⟩
      exact absurd hq (hfreshP p hp)
  · -- success: the id is in both stores
    constructor
    · intro _
      exact ⟨(newId, _), List.mem_cons_self _ _, rfl⟩
    · intro _
      exact List.mem_cons_self _ _

theorem c9_register_atomic_witness :
    (("u-new" : String) ∉ ([] : List String) ∧
      (∀ p ∈ ([] : List (String × String)), p.1 ≠ "u-new")) ∧
    ("u-new" ∈ (register ⟨[], []⟩ (some "alice") (some "a@b.c")
        (some "password1") "u-new" .created true).2.authUsers ↔
      ∃ p ∈ (register ⟨[], []⟩ (some "alice") (some "a@b.c")
        (some "password1") "u-new" .created true).2.profiles, p.1 = "u-new") :=
  ⟨⟨by decide, by decide⟩,
   c9_register_atomic ⟨[], []⟩ (some "alice") (some "a@b.c")
     (some "password1") "u-new" .created true (by decide) (by decide)⟩


theorem favMatch_spec {u t : String} {r : FavoriteRow} :
    favMatch u t r = true ↔ (r.user_id = u ∧ r.song_title = t) := by
  simp [favMatch]

theorem favInv_filter_length {s : FavState} (hinv : FavInv s) (u t : String) :
    (s.filter (favMatch u t)).length ≤ 1 := by
  induction s with
  | nil => simp
  | cons a l ih =>
    rw [FavInv, List.pairwise_cons] at hinv
    by_cases ha : favMatch u t a = true
    · rw [List.filter_cons_of_pos ha]
      have hnil : l.filter (favMatch u t) = [] := by
        rw [List.filter_eq_nil_iff]
        intro b hb hbmatch
        rcases favMatch_spec.mp ha with ⟨hau, hat⟩
        rcases favMatch_spec.mp hbmatch with ⟨hbu, hbt⟩
        rcases hinv.1 b hb with h | h
        · exact h (hau.trans hbu.symm)
        · exact h (hat.trans hbt.symm)
      simp [hnil]
    · rw [List.filter_cons_of_neg (by simpa using ha)]
      exact ih hinv.2

theorem filter_favMatch_cases {s : FavState} (hinv : FavInv s) (u t : String) :
    (s.filter (favMatch u t) = [] ∧ s.any (favMatch u t) = false) ∨
    (∃ r, s.filter (favMatch u t) = [r] ∧ s.any (favMatch u t) = true) := by
  have hlen := favInv_filter_length hinv u t
  match hf : s.filter (favMatch u t) with
  | [] =>
    left
    refine ⟨rfl, ?_⟩
    rw [List.any_eq_false]
    intro x hx
    exact (List.filter_eq_nil_iff.mp hf) x hx
  | [r] =>
    right
    refine ⟨r, rfl, ?_⟩
    rw [List.any_eq_true]
    have hr : r ∈ s.filter (favMatch u t) := by rw [hf]; exact List.mem_singleton.mpr rfl
    rcases List.mem_filter.mp hr with ⟨hrs, hrm⟩
    exact ⟨r, hrs, hrm⟩
  | x :: y :: rest =>
    rw [hf] at hlen
    simp at hlen

theorem mem_favTitles {s : FavState} {u x : String} :
    x ∈ favTitles s u ↔ ∃ r ∈ s, r.user_id = u ∧ r.song_title = x := by
  simp only [favTitles, List.mem_map, List.mem_filter, decide_eq_true_eq]
  constructor
  · rintro ⟨r, ⟨hrs, hru⟩, hrt⟩
    exact ⟨r, hrs, hru, hrt⟩
  · rintro ⟨r, hrs, hru, hrt⟩
    exact ⟨r, ⟨hrs, hru⟩, hrt⟩

/-- C3: for a non-empty title, toggling favorites twice in sequence (under
the store's `(user_id, song_title)` uniqueness invariant, all writes
succeeding) restores user `U`'s favorite title set exactly; the first call
reports `added` when the title was absent and `removed` when present, and
the second call reports the opposite.  Moreover the whole favorites table is
restored verbatim in the absent case, and up to row order in the present
case whenever the request body carries the same snapshot as the stored row
(the re-inserted row is built from the request, so only then can it
reproduce the deleted one). -/
theorem c3_toggle_involution (s : FavState) (u t : String) (b : FavBody)
    (hinv : FavInv s) (ht : b.songTitle = some t) (hne : t ≠ "") :
    (∀ x, x ∈ favTitles (toggleFavorite (toggleFavorite s u b).2 u b).2 u ↔
        x ∈ favTitles s u) ∧
    (t ∉ favTitles s u →
      (toggleFavorite s u b).1 = .added (mkFavRow u t b) ∧
      (toggleFavorite (toggleFavorite s u b).2 u b).1 = .removed) ∧
    (t ∈ favTitles s u →
      (toggleFavorite s u b).1 = .removed ∧
      (toggleFavorite (toggleFavorite s u b).2 u b).1 =
        .added (mkFavRow u t b)) ∧
    (t ∉ favTitles s u →
      (toggleFavorite (toggleFavorite s u b).2 u b).2 = s) ∧
    (∀ rr0, s.filter (favMatch u t) = [rr0] → mkFavRow u t b = rr0 →
      ((toggleFavorite (toggleFavorite s u b).2 u b).2).Perm s) := by
  have hrowmatch : favMatch u t (mkFavRow u t b) = true := by
    simp [favMatch, mkFavRow]
  have htmem : t ∈ favTitles s u ↔ s.any (favMatch u t) = true := by
    rw [mem_favTitles, List.any_eq_true]
    constructor
    · rintro ⟨r, hrs, hru, hrt⟩
      exact ⟨r, hrs, favMatch_spec.mpr ⟨hru, hrt⟩⟩
    · rintro ⟨r, hrs, hrm⟩
      rcases favMatch_spec.mp hrm with ⟨hru, hrt⟩
      exact ⟨r, hrs, hru, hrt⟩
  rcases filter_favMatch_cases hinv u t with ⟨hnil, hany⟩ | ⟨r, hone, hany⟩
  · -- absent: first toggle adds, second removes
    have habs : t ∉ favTitles s u := by
      rw [htmem, hany]; simp
    have hfirst : toggleFavorite s u b =
        (.added (mkFavRow u t b), s ++ [mkFavRow u t b]) := by
      rw [toggleFavorite, ht]
      simp [hne, hnil, singleFound, hany]
    have hmid : (s ++ [mkFavRow u t b]).filter (favMatch u t) =
        [mkFavRow u t b] := by
      rw [List.filter_append, hnil, List.nil_append,
        List.filter_cons_of_pos hrowmatch]
      rfl
    have hback : (s ++ [mkFavRow u t b]).filter
        (fun r => !(favMatch u t r)) = s := by
      rw [List.filter_append]
      have h1 : s.filter (fun r => !(favMatch u t r)) = s := by
        rw [List.filter_eq_self]
        intro a has
        have := (List.filter_eq_nil_iff.mp hnil) a has
        simpa using this
      have h2 : ([mkFavRow u t b] : FavState).filter
          (fun r => !(favMatch u t r)) = [] := by
        simp [hrowmatch]
      rw [h1, h2, List.append_nil]
    have hsecond : toggleFavorite (s ++ [mkFavRow u t b]) u b =
        (.removed, s) := by
      rw [toggleFavorite, ht]
      simp only [hne, if_false, hmid, singleFound, hback]
    refine ⟨?_, fun _ => ?_, fun hmem => absurd hmem habs, fun _ => ?_, ?_⟩
    · intro x
      rw [hfirst]
      simp only [hsecond]
    · rw [hfirst]
      simp only [hsecond]
      constructor <;> first | rfl | trivial
    · rw [hfirst]
      simp only [hsecond]
    · intro rr0 hfeq hrowe
      rw [hnil] at hfeq
      exact List.noConfusion hfeq
  · -- present: first toggle removes, second adds
    have hpres : t ∈ favTitles s u := by rw [htmem]; exact hany
    have hfirst : toggleFavorite s u b =
        (.removed, s.filter (fun r => !(favMatch u t r))) := by
      rw [toggleFavorite, ht]
      simp only [hne, if_false, hone, singleFound]
    have hmidnil : (s.filter (fun r => !(favMatch u t r))).filter
        (favMatch u t) = [] := by
      rw [List.filter_eq_nil_iff]
      intro a ha hmatch
      rcases List.mem_filter.mp ha with ⟨-, hneg⟩
      rw [hmatch] at hneg
      simp at hneg
    have hmidany : (s.filter (fun r => !(favMatch u t r))).any
        (favMatch u t) = false := by
      rw [List.any_eq_false]
      intro a ha
      rcases List.mem_filter.mp ha with ⟨-, hneg⟩
      simpa using hneg
    have hsecond : toggleFavorite (s.filter (fun r => !(favMatch u t r))) u b =
        (.added (mkFavRow u t b),
         s.filter (fun r => !(favMatch u t r)) ++ [mkFavRow u t b]) := by
      rw [toggleFavorite, ht]
      simp only [hne, if_false, hmidnil, singleFound, hmidany]
      simp
    refine ⟨?_, fun hmem => absurd hpres hmem, fun _ => ?_,
      fun hmem => absurd hpres hmem, ?_⟩
    · intro x
      rw [hfirst]
      simp only [hsecond]
      rw [mem_favTitles, mem_favTitles]
      constructor
      · rintro ⟨rr, hrr, hru, hrt⟩
        rcases List.mem_append.mp hrr with hin | hin
        · exact ⟨rr, (List.mem_filter.mp hin).1, hru, hrt⟩
        · rcases List.mem_singleton.mp hin with rfl
          rw [htmem, List.any_eq_true] at hpres
          rcases hpres with ⟨rr2, hrs2, hrm2⟩
          rcases favMatch_spec.mp hrm2 with ⟨hru2, hrt2⟩
          refine ⟨rr2, hrs2, hru2, ?_⟩
          rw [hrt2]
          exact hrt
      · rintro ⟨rr, hrr, hru, hrt⟩
        by_cases hx : rr.song_title = t
        · refine ⟨mkFavRow u t b, List.mem_append_right _ (List.mem_singleton.mpr rfl), rfl, ?_⟩
          show t = x
          rw [← hx]; exact hrt
        · refine ⟨rr, List.mem_append_left _ ?_, hru, hrt⟩
          rw [List.mem_filter]
          refine ⟨hrr, ?_⟩
          have : favMatch u t rr = false := by
            rw [favMatch]
            simp [hx]
          simp [this]
    · rw [hfirst]
      simp only [hsecond]
      constructor <;> first | rfl | trivial
    · intro rr0 hfeq hrowe
      rw [hfirst]
      simp only [hsecond]
      rw [hrowe, ← hfeq]
      exact (List.perm_append_comm).trans (List.filter_append_perm _ _)

theorem c3_toggle_involution_witness :
    (FavInv ([] : FavState) ∧
      (⟨some "SongA", none, none, none, none, none⟩ : FavBody).songTitle =
        some "SongA" ∧ ("SongA" : String) ≠ "") ∧
    ((∀ x, x ∈ favTitles (toggleFavorite (toggleFavorite ([] : FavState) "u"
          ⟨some "SongA", none, none, none, none, none⟩).2 "u"
          ⟨some "SongA", none, none, none, none, none⟩).2 "u" ↔
        x ∈ favTitles ([] : FavState) "u") ∧
    ("SongA" ∉ favTitles ([] : FavState) "u" →
      (toggleFavorite ([] : FavState) "u"
          ⟨some "SongA", none, none, none, none, none⟩).1 =
        .added (mkFavRow "u" "SongA" ⟨some "SongA", none, none, none, none, none⟩) ∧
      (toggleFavorite (toggleFavorite ([] : FavState) "u"
          ⟨some "SongA", none, none, none, none, none⟩).2 "u"
          ⟨some "SongA", none, none, none, none, none⟩).1 = .removed) ∧
    ("SongA" ∈ favTitles ([] : FavState) "u" →
      (toggleFavorite ([] : FavState) "u"
          ⟨some "SongA", none, none, none, none, none⟩).1 = .removed ∧
      (toggleFavorite (toggleFavorite ([] : FavState) "u"
          ⟨some "SongA", none, none, none, none, none⟩).2 "u"
          ⟨some "SongA", none, none, none, none, none⟩).1 =
        .added (mkFavRow "u" "SongA"
          ⟨some "SongA", none, none, none, none, none⟩)) ∧
    ("SongA" ∉ favTitles ([] : FavState) "u" →
      (toggleFavorite (toggleFavorite ([] : FavState) "u"
          ⟨some "SongA", none, none, none, none, none⟩).2 "u"
          ⟨some "SongA", none, none, none, none, none⟩).2 = []) ∧
    (∀ rr0, ([] : FavState).filter (favMatch "u" "SongA") = [rr0] →
      mkFavRow "u" "SongA" ⟨some "SongA", none, none, none, none, none⟩ = rr0 →
      ((toggleFavorite (toggleFavorite ([] : FavState) "u"
          ⟨some "SongA", none, none, none, none, none⟩).2 "u"
          ⟨some "SongA", none, none, none, none, none⟩).2).Perm [])) :=
  ⟨⟨by decide, rfl, by decide⟩,
   c3_toggle_involution ([] : FavState) "u" "SongA"
     ⟨some "SongA", none, none, none, none, none⟩ (by decide) rfl (by decide)⟩

/-- C5: favorites add under the store's uniqueness invariant — a falsy
`songTitle` fails with the validation error and leaves the store unchanged;
with a non-empty title, the request conflicts (via the pre-check read)
exactly when a `(user, songTitle)` row already exists, and otherwise appends
exactly the one created row and returns it. -/
theorem c5_add_favorite (s : FavState) (u : String) (b : FavBody)
    (hinv : FavInv s) :
    (jsTruthy b.songTitle = false → addFavorite s u b = (.validationError, s)) ∧
    (∀ t, b.songTitle = some t → t ≠ "" →
      ((∃ r ∈ s, r.user_id = u ∧ r.song_title = t) →
        addFavorite s u b = (.conflict, s)) ∧
      ((¬∃ r ∈ s, r.user_id = u ∧ r.song_title = t) →
        addFavorite s u b = (.ok (mkFavRow u t b), s ++ [mkFavRow u t b]))) := by
  constructor
  · intro hfalsy
    match hb : b.songTitle with
    | none => rw [addFavorite, hb]
    | some t =>
      rw [hb, jsTruthy] at hfalsy
      simp only [decide_eq_false_iff_not, not_not] at hfalsy
      rw [addFavorite, hb]
      simp [hfalsy]
  · intro t hb hne
    have hexany : (∃ r ∈ s, r.user_id = u ∧ r.song_title = t) ↔
        s.any (favMatch u t) = true := by
      rw [List.any_eq_true]
      constructor
      · rintro ⟨r, hrs, hru, hrt⟩
        exact ⟨r, hrs, favMatch_spec.mpr ⟨hru, hrt⟩⟩
      · rintro ⟨r, hrs, hrm⟩
        rcases favMatch_spec.mp hrm with ⟨hru, hrt⟩
        exact ⟨r, hrs, hru, hrt⟩
    rcases filter_favMatch_cases hinv u t with ⟨hnil, hany⟩ | ⟨r, hone, hany⟩
    · constructor
      · intro hex
        rw [hexany, hany] at hex
        cases hex
      · intro _
        rw [addFavorite, hb]
        simp only [hne, if_false, hnil, singleFound, hany]
        simp
    · constructor
      · intro _
        rw [addFavorite, hb]
        simp only [hne, if_false, hone, singleFound]
      · intro hnex
        exact absurd (hexany.mpr hany) hnex

theorem c5_add_favorite_witness :
    FavInv ([⟨"u", "Old", none, none, none, none, none⟩] : FavState) ∧
    ((jsTruthy (⟨some "New", none, none, none, none, none⟩ : FavBody).songTitle = false →
      addFavorite ([⟨"u", "Old", none, none, none, none, none⟩] : FavState) "u"
        ⟨some "New", none, none, none, none, none⟩ =
        (.validationError, [⟨"u", "Old", none, none, none, none, none⟩])) ∧
    (∀ t, (⟨some "New", none, none, none, none, none⟩ : FavBody).songTitle = some t →
      t ≠ "" →
      ((∃ r ∈ ([⟨"u", "Old", none, none, none, none, none⟩] : FavState),
          r.user_id = "u" ∧ r.song_title = t) →
        addFavorite ([⟨"u", "Old", none, none, none, none, none⟩] : FavState) "u"
          ⟨some "New", none, none, none, none, none⟩ =
          (.conflict, [⟨"u", "Old", none, none, none, none, none⟩])) ∧
      ((¬∃ r ∈ ([⟨"u", "Old", none, none, none, none, none⟩] : FavState),
          r.user_id = "u" ∧ r.song_title = t) →
        addFavorite ([⟨"u", "Old", none, none, none, none, none⟩] : FavState) "u"
          ⟨some "New", none, none, none, none, none⟩ =
          (.ok (mkFavRow "u" t ⟨some "New", none, none, none, none, none⟩),
           [⟨"u", "Old", none, none, none, none, none⟩] ++
             [mkFavRow "u" t ⟨some "New", none, none, none, none, none⟩])))) :=
  ⟨by decide,
   c5_add_favorite ([⟨"u", "Old", none, none, none, none, none⟩] : FavState) "u"
     ⟨some "New", none, none, none, none, none⟩ (by decide)⟩

theorem length_filter_le_one {α : Type} {R : α → α → Prop} {p : α → Bool}
    {l : List α} (hl : l.Pairwise R)
    (hcomp : ∀ a b, p a = true → p b = true → ¬R a b) :
    (l.filter p).length ≤ 1 := by
  induction l with
  | nil => simp
  | cons a t ih =>
    rw [List.pairwise_cons] at hl
    by_cases ha : p a = true
    · rw [List.filter_cons_of_pos ha]
      have hnil : t.filter p = [] := by
        rw [List.filter_eq_nil_iff]
        intro b hb hpb
        exact hcomp a b ha hpb (hl.1 b hb)
      simp [hnil]
    · rw [List.filter_cons_of_neg (by simpa using ha)]
      exact ih hl.2

theorem filter_single_cases {α : Type} {p : α → Bool} {l : List α}
    (h : (l.filter p).length ≤ 1) :
    (l.filter p = [] ∧ ∀ a ∈ l, ¬p a = true) ∨
    (∃ x, l.filter p = [x] ∧ x ∈ l ∧ p x = true ∧
      ∀ a ∈ l, p a = true → a = x) := by
  match hf : l.filter p with
  | [] =>
    left
    refine ⟨rfl, fun a ha hpa => ?_⟩
    have : a ∈ l.filter p := List.mem_filter.mpr ⟨ha, hpa⟩
    rw [hf] at this
    cases this
  | [x] =>
    right
    have hx : x ∈ l.filter p := by rw [hf]; exact List.mem_singleton.mpr rfl
    rcases List.mem_filter.mp hx with ⟨hxl, hxp⟩
    refine ⟨x, rfl, hxl, hxp, fun a ha hpa => ?_⟩
    have : a ∈ l.filter p := List.mem_filter.mpr ⟨ha, hpa⟩
    rw [hf] at this
    exact List.mem_singleton.mp this
  | x :: y :: rest =>
    rw [hf] at h
    simp at h

/-- The primary-key invariant on playlists: no two rows share an id. -/
def PlIdInv (s : List PlaylistRow) : Prop :=
  s.Pairwise (fun a b => a.id ≠ b.id)

instance (s : List PlaylistRow) : Decidable (PlIdInv s) := by
  unfold PlIdInv; infer_instance

/-- C7: playlist update under the primary-key invariant — the request is
answered 404 "Playlist not found" exactly when no playlist with that id
owned by the caller exists (missing row and foreign owner are one combined
signal), and then the store is unchanged; on success only the fields
provided in the body change (name trimmed), every unprovided field keeps its
previous value, the updated-timestamp is always refreshed, and every other
playlist row is untouched. -/
theorem c7_update_playlist (s : List PlaylistRow) (u id : String)
    (body : UpdateBody) (now : String) (hinv : PlIdInv s) :
    ((updatePlaylist s u id body now).1 = .notFound ↔
      ¬∃ r ∈ s, r.id = id ∧ r.user_id = u) ∧
    ((updatePlaylist s u id body now).1 = .notFound →
      (updatePlaylist s u id body now).2 = s) ∧
    (∀ r0 ∈ s, r0.id = id → r0.user_id = u →
      (updatePlaylist s u id body now).1 = .ok (applyUpdate body now r0) ∧
      (updatePlaylist s u id body now).2 =
        s.map (fun r => if r.id = id then applyUpdate body now r else r) ∧
      (∀ r ∈ s, r.id ≠ id → r ∈ (updatePlaylist s u id body now).2)) ∧
    (∀ r0 : PlaylistRow,
      (body.name = none → (applyUpdate body now r0).name = r0.name) ∧
      (∀ n, body.name = some n → (applyUpdate body now r0).name = jsTrim n) ∧
      (body.description = none →
        (applyUpdate body now r0).description = r0.description) ∧
      (∀ d, body.description = some d →
        (applyUpdate body now r0).description = d) ∧
      (body.coverImage = none →
        (applyUpdate body now r0).cover_image = r0.cover_image) ∧
      (∀ c, body.coverImage = some c →
        (applyUpdate body now r0).cover_image = c) ∧
      (applyUpdate body now r0).updated_at = now ∧
      (applyUpdate body now r0).id = r0.id ∧
      (applyUpdate body now r0).user_id = r0.user_id ∧
      (applyUpdate body now r0).created_at = r0.created_at) := by
  have hframe : ∀ r0 : PlaylistRow,
      (body.name = none → (applyUpdate body now r0).name = r0.name) ∧
      (∀ n, body.name = some n → (applyUpdate body now r0).name = jsTrim n) ∧
      (body.description = none →
        (applyUpdate body now r0).description = r0.description) ∧
      (∀ d, body.description = some d →
        (applyUpdate body now r0).description = d) ∧
      (body.coverImage = none →
        (applyUpdate body now r0).cover_image = r0.cover_image) ∧
      (∀ c, body.coverImage = some c →
        (applyUpdate body now r0).cover_image = c) ∧
      (applyUpdate body now r0).updated_at = now ∧
      (applyUpdate body now r0).id = r0.id ∧
      (applyUpdate body now r0).user_id = r0.user_id ∧
      (applyUpdate body now r0).created_at = r0.created_at := by
    intro r0
    refine ⟨?_, ?_, ?_, ?_, ?_, ?_, rfl, rfl, rfl, rfl⟩
    · intro h; simp [applyUpdate, h]
    · intro n h; simp [applyUpdate, h]
    · intro h; simp [applyUpdate, h]
    · intro d h; simp [applyUpdate, h]
    · intro h; simp [applyUpdate, h]
    · intro c h; simp [applyUpdate, h]
  have hcomp : ∀ a b : PlaylistRow,
      decide (a.id = id) = true → decide (b.id = id) = true →
      ¬(a.id ≠ b.id) := by
    intro a b ha hb
    rw [decide_eq_true_eq] at ha hb
    simp [ha, hb]
  rcases filter_single_cases (length_filter_le_one hinv hcomp) with
    ⟨hnil, hall⟩ | ⟨x, hone, hxmem, hxid, huniq⟩
  · have hres : updatePlaylist s u id body now = (.notFound, s) := by
      rw [updatePlaylist]
      simp only [hnil, singleFound]
    rw [hres]
    refine ⟨?_, fun _ => rfl, ?_, hframe⟩
    · constructor
      · intro _
        rintro ⟨r, hrs, hrid, -⟩
        exact hall r hrs (decide_eq_true hrid)
      · intro _; rfl
    · intro r0 hr0s hr0id _
      exact absurd (decide_eq_true hr0id) (hall r0 hr0s)
  · rw [decide_eq_true_eq] at hxid
    by_cases hxu : x.user_id = u
    · have hres : updatePlaylist s u id body now =
          (.ok (applyUpdate body now x),
           s.map (fun r => if r.id = id then applyUpdate body now r else r)) := by
        rw [updatePlaylist]
        simp only [hone, singleFound]
        rw [if_neg (fun h => h hxu)]
      rw [hres]
      refine ⟨?_, ?_, ?_, hframe⟩
      · constructor
        · intro h; exact UpdatePlResult.noConfusion h
        · intro h; exact absurd ⟨x, hxmem, hxid, hxu⟩ h
      · intro h; exact UpdatePlResult.noConfusion h
      · intro r0 hr0s hr0id _
        have heq : r0 = x := huniq r0 hr0s (decide_eq_true hr0id)
        rw [heq]
        refine ⟨rfl, rfl, ?_⟩
        intro r hrs hrid
        rw [List.mem_map]
        exact ⟨r, hrs, by rw [if_neg hrid]⟩
    · have hres : updatePlaylist s u id body now = (.notFound, s) := by
        rw [updatePlaylist]
        simp only [hone, singleFound]
        rw [if_pos hxu]
      rw [hres]
      refine ⟨?_, fun _ => rfl, ?_, hframe⟩
      · constructor
        · intro _
          rintro ⟨r, hrs, hrid, hru⟩
          have heq : r = x := huniq r hrs (decide_eq_true hrid)
          rw [heq] at hru
          exact hxu hru
        · intro _; rfl
      · intro r0 hr0s hr0id hr0u
        have heq : r0 = x := huniq r0 hr0s (decide_eq_true hr0id)
        rw [heq] at hr0u
        exact absurd hr0u hxu


theorem singleFound_eq_some_iff {α : Type} {l : List α} {x : α} :
    singleFound l = some x ↔ l = [x] := by
  match l with
  | [] => simp [singleFound]
  | [a] => simp [singleFound]
  | a :: b :: t => simp [singleFound]

theorem singleFound_eq_none_iff {α : Type} {l : List α} :
    singleFound l = none ↔ l.length ≠ 1 := by
  match l with
  | [] => simp [singleFound]
  | [a] => simp [singleFound]
  | a :: b :: t => simp [singleFound]

/-- C4 (amended): with a name that is non-blank after trimming, create
answers the conflict error exactly when the pre-read — an `ilike`
case-insensitive LIKE-pattern match with the trimmed submitted name as the
pattern (`%`/`_` acting as wildcards), read through `.single()` — finds
exactly one playlist of the same owner; with zero or two-plus matches the
insert proceeds and succeeds (schema.sql defines no unique constraint on
playlists `(user_id, name)`, so the route's unique-violation mapping is dead
code) and the playlist is created with the trimmed name.  Rows of other
owners never trigger the conflict, so a different owner may reuse the same
name. -/
theorem c4_create_playlist (s : List PlaylistRow) (u : String)
    (name description coverImage : Option String) (newId now : String)
    (n : String) (hn : name = some n) (hblank : jsTrim n ≠ "") :
    ((createPlaylist s u name description coverImage newId now).1 = .conflict ↔
      (s.filter (fun r =>
          r.user_id = u && ilikeMatch r.name (jsTrim n))).length = 1) ∧
    ((s.filter (fun r =>
          r.user_id = u && ilikeMatch r.name (jsTrim n))).length ≠ 1 →
      createPlaylist s u name description coverImage newId now =
        (.ok (newPlaylistRow u (jsTrim n) description coverImage newId now),
         s ++ [newPlaylistRow u (jsTrim n) description coverImage newId now])) := by
  have hne : n ≠ "" := fun h => hblank (by rw [h]; rfl)
  rcases hsf : singleFound (s.filter (fun r =>
      r.user_id = u && ilikeMatch r.name (jsTrim n))) with - | v
  · have hlen : (s.filter (fun r =>
        r.user_id = u && ilikeMatch r.name (jsTrim n))).length ≠ 1 :=
      singleFound_eq_none_iff.mp hsf
    have hres : createPlaylist s u (some n) description coverImage newId now =
        (.ok (newPlaylistRow u (jsTrim n) description coverImage newId now),
         s ++ [newPlaylistRow u (jsTrim n) description coverImage newId now]) := by
      simp only [createPlaylist, hne, hblank, if_false, hsf]
    rw [hn, hres]
    exact ⟨⟨fun h => absurd h (by simp), fun h => absurd h hlen⟩, fun _ => rfl⟩
  · have hres : createPlaylist s u (some n) description coverImage newId now =
        (.conflict, s) := by
      simp only [createPlaylist, hne, hblank, if_false, hsf]
    have hlen : (s.filter (fun r =>
        r.user_id = u && ilikeMatch r.name (jsTrim n))).length = 1 := by
      rw [singleFound_eq_some_iff.mp hsf]
      rfl
    rw [hn, hres]
    exact ⟨⟨fun _ => hlen, fun _ => rfl⟩, fun h => absurd hlen h⟩

/-- C4 counterexample, both directions.  Direction one: the owner has one
playlist named "ab"; creating "a_" (no case-insensitive collision — `_` is
an `ilike` wildcard, not a literal) is answered with the conflict error.
Direction two: the owner has "a_" and "ab" (a state the route itself can
reach); re-creating the very name "a_" succeeds with 200, because the
pattern matches both rows, `.single()` errors on two rows, and the insert is
unconstrained.  Both refute "fails with ConflictError exactly when the same
owner already has a playlist whose name matches case-insensitively". -/
theorem c4_counterexample :
    (createPlaylist [⟨"p1", "u", "ab", none, none, "t0", "t0"⟩] "u"
        (some "a_") none none "p2" "t1").1 = .conflict ∧
    (∀ r ∈ ([⟨"p1", "u", "ab", none, none, "t0", "t0"⟩] : List PlaylistRow),
      cieq r.name (jsTrim "a_") = false) ∧
    jsTrim "a_" = "a_" ∧
    (createPlaylist [⟨"p1", "u", "a_", none, none, "t0", "t0"⟩,
        ⟨"p2", "u", "ab", none, none, "t0", "t0"⟩] "u"
        (some "a_") none none "p3" "t1").1 =
      .ok (newPlaylistRow "u" "a_" none none "p3" "t1") ∧
    cieq "a_" (jsTrim "a_") = true := by
  refine ⟨?_, ?_, ?_, ?_, ?_⟩ <;> decide

theorem c4_create_playlist_witness :
    (some " My Mix " = some " My Mix " ∧ jsTrim " My Mix " ≠ "") ∧
    ((createPlaylist [⟨"p1", "v", "My Mix", none, none, "t0", "t0"⟩] "u"
        (some " My Mix ") none none "p2" "t1").1 = .conflict ↔
      (([⟨"p1", "v", "My Mix", none, none, "t0", "t0"⟩] : List PlaylistRow).filter
          (fun r => r.user_id = "u" &&
            ilikeMatch r.name (jsTrim " My Mix "))).length = 1) :=
  ⟨⟨rfl, by decide⟩,
   (c4_create_playlist [⟨"p1", "v", "My Mix", none, none, "t0", "t0"⟩] "u"
     (some " My Mix ") none none "p2" "t1" " My Mix " rfl (by decide)).1⟩

theorem c7_update_playlist_witness :
    PlIdInv ([⟨"p1", "u", "Old", none, none, "t0", "t0"⟩] : List PlaylistRow) ∧
    ((updatePlaylist [⟨"p1", "u", "Old", none, none, "t0", "t0"⟩] "u" "p1"
        ⟨some " New ", none, some (some "cov")⟩ "t1").1 = .notFound ↔
      ¬∃ r ∈ ([⟨"p1", "u", "Old", none, none, "t0", "t0"⟩] : List PlaylistRow),
        r.id = "p1" ∧ r.user_id = "u") :=
  ⟨by decide,
   (c7_update_playlist [⟨"p1", "u", "Old", none, none, "t0", "t0"⟩] "u" "p1"
     ⟨some " New ", none, some (some "cov")⟩ "t1" (by decide)).1⟩

theorem assignPositions_length (pid now : String) (base : Nat)
    (l : List InputSong) :
    (assignPositions pid now base l).length = l.length := by
  induction l generalizing base with
  | nil => rfl
  | cons s rest ih => simp [assignPositions, ih]

theorem assignPositions_get (pid now : String) (base : Nat)
    (l : List InputSong) (i : Nat)
    (h : i < (assignPositions pid now base l).length) (h2 : i < l.length) :
    (assignPositions pid now base l).get ⟨i, h⟩ =
      mkPlaylistSongRow pid (l.get ⟨i, h2⟩) (base + i) now := by
  induction l generalizing base i with
  | nil => cases h2
  | cons s rest ih =>
    match i with
    | 0 => rfl
    | j + 1 =>
      have hj : j < (assignPositions pid now (base + 1) rest).length := by
        rw [assignPositions_length]
        exact Nat.lt_of_succ_lt_succ h2
      have := ih (base + 1) j hj (Nat.lt_of_succ_lt_succ h2)
      simp only [assignPositions, List.get_cons_succ]
      rw [this]
      congr 1
      omega

theorem le_foldr_max_of_mem {l : List Nat} {x : Nat} (h : x ∈ l) :
    x ≤ l.foldr max 0 := by
  induction l with
  | nil => cases h
  | cons a t ih =>
    rcases List.mem_cons.mp h with rfl | hmem
    · exact Nat.le_max_left _ _
    · exact Nat.le_trans (ih hmem) (Nat.le_max_right _ _)

theorem nextPositionOf_eq (rows : List PlaylistSongRow) :
    nextPositionOf rows =
      (rows.map (fun r => r.position)).foldr max 0 + 1 := by
  rw [nextPositionOf]
  match rows with
  | [] => rfl
  | a :: t =>
    simp only [List.isEmpty_cons, if_false]
    by_cases h : ((a :: t).map (fun r => r.position)).foldr max 0 = 0
    · rw [h]
      simp
    · simp [h]

theorem position_lt_nextPositionOf {rows : List PlaylistSongRow}
    {r : PlaylistSongRow} (h : r ∈ rows) :
    r.position < nextPositionOf rows := by
  rw [nextPositionOf_eq]
  have : r.position ∈ rows.map (fun r => r.position) :=
    List.mem_map.mpr ⟨r, h, rfl⟩
  exact Nat.lt_succ_of_le (le_foldr_max_of_mem this)

/-- C1: an authenticated add-songs request on an owned playlist (unique
playlist ids) with a non-empty songs array, where at least one song survives
the duplicate-title filter, inserts exactly the filtered songs: the i-th
inserted row gets position nextPosition + i where nextPosition is one more
than the maximum pre-existing position of the playlist (1 when it has no
rows), so the new positions are consecutive, strictly increasing, follow
submission order of the filtered batch, exceed every pre-existing position,
and a song skipped as a duplicate consumes no position slot (the inserted
count equals the filtered count). -/
theorem c1_add_songs_positions (playlists : List PlaylistRow)
    (plSongs : List PlaylistSongRow) (u pid : String)
    (songs : List InputSong) (now : String) (hinv : PlIdInv playlists)
    (hown : ∃ r ∈ playlists, r.id = pid ∧ r.user_id = u)
    (hne : songs ≠ [])
    (hrem : songs.filter (fun s => !(titleExists
        (plSongs.filter (fun r => r.playlist_id = pid))
        (jsOr s.songTitle s.title))) ≠ []) :
    ∃ inserted,
      addSongsRoute playlists plSongs u pid songs now =
        (.ok inserted, plSongs ++ inserted) ∧
      inserted.length = (songs.filter (fun s => !(titleExists
        (plSongs.filter (fun r => r.playlist_id = pid))
        (jsOr s.songTitle s.title)))).length ∧
      (∀ i (h : i < inserted.length),
        (inserted.get ⟨i, h⟩).position =
          nextPositionOf (plSongs.filter (fun r => r.playlist_id = pid)) + i) ∧
      (∀ i (h : i < inserted.length)
          (h2 : i < (songs.filter (fun s => !(titleExists
            (plSongs.filter (fun r => r.playlist_id = pid))
            (jsOr s.songTitle s.title)))).length),
        (inserted.get ⟨i, h⟩).song_title =
          jsOr ((songs.filter (fun s => !(titleExists
            (plSongs.filter (fun r => r.playlist_id = pid))
            (jsOr s.songTitle s.title)))).get ⟨i, h2⟩).songTitle
            ((songs.filter (fun s => !(titleExists
            (plSongs.filter (fun r => r.playlist_id = pid))
            (jsOr s.songTitle s.title)))).get ⟨i, h2⟩).title) ∧
      (∀ r ∈ plSongs.filter (fun r => r.playlist_id = pid),
        ∀ nr ∈ inserted, r.position < nr.position) ∧
      nextPositionOf (plSongs.filter (fun r => r.playlist_id = pid)) =
        ((plSongs.filter (fun r => r.playlist_id = pid)).map
          (fun r => r.position)).foldr max 0 + 1 := by
  have hcomp : ∀ a b : PlaylistRow,
      decide (a.id = pid) = true → decide (b.id = pid) = true →
      ¬(a.id ≠ b.id) := by
    intro a b ha hb
    rw [decide_eq_true_eq] at ha hb
    simp [ha, hb]
  rcases hown with ⟨r0, hr0s, hr0id, hr0u⟩
  rcases filter_single_cases (length_filter_le_one hinv hcomp) with
    ⟨-, hall⟩ | ⟨x, hone, -, hxid, huniq⟩
  · exact absurd (decide_eq_true hr0id) (hall r0 hr0s)
  · have hx0 : r0 = x := huniq r0 hr0s (decide_eq_true hr0id)
    have hxu : x.user_id = u := by rw [← hx0]; exact hr0u
    set rowsFor := plSongs.filter (fun r => r.playlist_id = pid) with hrows
    set filtered := songs.filter (fun s => !(titleExists rowsFor
        (jsOr s.songTitle s.title))) with hfil
    set inserted := assignPositions pid now (nextPositionOf rowsFor) filtered
      with hins
    have hlen : inserted.length = filtered.length :=
      assignPositions_length _ _ _ _
    have hinserted_ne : inserted.isEmpty = false := by
      rw [List.isEmpty_eq_false_iff_exists_mem]
      have : 0 < filtered.length := List.length_pos.mpr hrem
      rw [← hlen] at this
      exact ⟨inserted.get ⟨0, this⟩, inserted.get_mem _ _⟩
    have hres : addSongsRoute playlists plSongs u pid songs now =
        (.ok inserted, plSongs ++ inserted) := by
      rw [addSongsRoute]
      rw [if_neg (by simpa using hne)]
      rw [hone]
      simp only [singleFound]
      rw [if_neg (fun h => h hxu)]
      simp only [← hrows, ← hfil, ← hins, hinserted_ne]
      rfl
    refine ⟨inserted, hres, hlen, ?_, ?_, ?_, nextPositionOf_eq _⟩
    · intro i h
      have h2 : i < filtered.length := by rw [← hlen]; exact h
      have hget : inserted.get ⟨i, h⟩ = mkPlaylistSongRow pid
          (filtered.get ⟨i, h2⟩) (nextPositionOf rowsFor + i) now :=
        assignPositions_get pid now (nextPositionOf rowsFor) filtered i h h2
      rw [hget]
      rfl
    · intro i h h2
      have hget : inserted.get ⟨i, h⟩ = mkPlaylistSongRow pid
          (filtered.get ⟨i, h2⟩) (nextPositionOf rowsFor + i) now :=
        assignPositions_get pid now (nextPositionOf rowsFor) filtered i h h2
      rw [hget]
      rfl
    · intro r hr nr hnr
      rcases List.mem_iff_get.mp hnr with ⟨⟨i, hi⟩, hgeti⟩
      have h2 : i < filtered.length := by rw [← hlen]; exact hi
      have hget : inserted.get ⟨i, hi⟩ = mkPlaylistSongRow pid
          (filtered.get ⟨i, h2⟩) (nextPositionOf rowsFor + i) now :=
        assignPositions_get pid now (nextPositionOf rowsFor) filtered i hi h2
      have hpos : nr.position = nextPositionOf rowsFor + i := by
        rw [← hgeti, hget]
        rfl
      rw [hpos]
      exact Nat.lt_of_lt_of_le (position_lt_nextPositionOf hr)
        (Nat.le_add_right _ _)

/-- Concrete playlists store used to exercise the add-songs theorem. -/
def samplePlaylists : List PlaylistRow :=
  [⟨"p1", "u", "Mix", none, none, "t0", "t0"⟩]

/-- Concrete playlist_songs store: one row of playlist p1 at position 5. -/
def samplePlSongs : List PlaylistSongRow :=
  [⟨"p1", some "Old", none, none, none, none, 5, "t0"⟩]

/-- Concrete add-songs batch: one duplicate title and two new ones. -/
def sampleSongs : List InputSong :=
  [⟨some "Old", none, none, none, none, none, none, none, none⟩,
   ⟨some "New1", none, none, none, none, none, none, none, none⟩,
   ⟨some "New2", none, none, none, none, none, none, none, none⟩]

theorem c1_add_songs_positions_witness :
    (PlIdInv samplePlaylists ∧
      (∃ r ∈ samplePlaylists, r.id = "p1" ∧ r.user_id = "u") ∧
      sampleSongs ≠ [] ∧
      sampleSongs.filter (fun s => !(titleExists
        (samplePlSongs.filter (fun r => r.playlist_id = "p1"))
        (jsOr s.songTitle s.title))) ≠ []) ∧
    (∃ inserted,
      addSongsRoute samplePlaylists samplePlSongs "u" "p1" sampleSongs "t1" =
        (.ok inserted, samplePlSongs ++ inserted) ∧
      inserted.length = (sampleSongs.filter (fun s => !(titleExists
        (samplePlSongs.filter (fun r => r.playlist_id = "p1"))
        (jsOr s.songTitle s.title)))).length ∧
      (∀ i (h : i < inserted.length),
        (inserted.get ⟨i, h⟩).position =
          nextPositionOf (samplePlSongs.filter
            (fun r => r.playlist_id = "p1")) + i) ∧
      (∀ i (h : i < inserted.length)
          (h2 : i < (sampleSongs.filter (fun s => !(titleExists
            (samplePlSongs.filter (fun r => r.playlist_id = "p1"))
            (jsOr s.songTitle s.title)))).length),
        (inserted.get ⟨i, h⟩).song_title =
          jsOr ((sampleSongs.filter (fun s => !(titleExists
            (samplePlSongs.filter (fun r => r.playlist_id = "p1"))
            (jsOr s.songTitle s.title)))).get ⟨i, h2⟩).songTitle
            ((sampleSongs.filter (fun s => !(titleExists
            (samplePlSongs.filter (fun r => r.playlist_id = "p1"))
            (jsOr s.songTitle s.title)))).get ⟨i, h2⟩).title) ∧
      (∀ r ∈ samplePlSongs.filter (fun r => r.playlist_id = "p1"),
        ∀ nr ∈ inserted, r.position < nr.position) ∧
      nextPositionOf (samplePlSongs.filter (fun r => r.playlist_id = "p1")) =
        ((samplePlSongs.filter (fun r => r.playlist_id = "p1")).map
          (fun r => r.position)).foldr max 0 + 1) :=
  ⟨⟨by decide, by decide, by decide, by decide⟩,
   c1_add_songs_positions samplePlaylists samplePlSongs "u" "p1" sampleSongs
     "t1" (by decide) (by decide) (by decide) (by decide)⟩

end JustVibe
